import Mathlib

/-!
Shallow embedding of the data-fetching and aggregation core of the
Cardano NFT floor-price bot (src/bot.py).

HTTP interactions are embedded by passing each endpoint response as an
explicit structure: a response carries its HTTP status and the JSON
fields the code reads.  Raising FetchingException is embedded as
`FetchResult.error FetchError.fetchingException`; an uncaught exception
in a command aborts the command.  Python numbers produced by true division
are embedded as exact rationals, and the SQLite table of tracked
policies is embedded as an insertion-ordered list of rows.
-/

namespace NftBot

/-- The FetchingException raised by the fetch helpers on an unexpected
HTTP status. -/
inductive FetchError where
  | fetchingException
  deriving DecidableEq

/-- Result of an operation that may raise: a normal value or a raised
exception propagating to the caller. -/
inductive FetchResult (α : Type) where
  | ok (a : α)
  | error (e : FetchError)
  deriving DecidableEq

/-- The Collection dataclass: name (the `url` search field), display
name and policy id, each possibly absent since the code reads them with
`dict.get`. -/
structure Collection where
  name : Option String
  display_name : Option String
  policy_id : Option String
  deriving DecidableEq

/-- One entry of the `collections` array of a search response. -/
structure CollectionJson where
  url : Option String
  display_name : Option String
  policy_id : Option String
  deriving DecidableEq

/-- Response of GET /search/collections: status plus the optional
`collections` field. -/
structure SearchResp where
  status : Nat
  collections : Option (List CollectionJson)
  deriving DecidableEq

/-- Response of GET /collection/name/floor: status plus the `floor`
field, which is an integer or null. -/
structure FloorResp where
  status : Nat
  floor : Option Int
  deriving DecidableEq

/-- Response of GET /collection/policy/transactions: status plus the
optional `transactions` array, reduced to the `amount_lovelace` values
the code reads. -/
structure TxResp where
  status : Nat
  transactions : Option (List Int)
  deriving DecidableEq

/-- Response of the secondary provider GET /policy/policy_id: status
plus the fields the code reads. -/
structure CnftResp where
  status : Nat
  floor_price : Int
  asset_minted : Int
  total_volume : Int
  thumbnail : Option String
  deriving DecidableEq

/-- Minor-to-major unit conversion: int(x) / 1000000 as exact division. -/
def lovelaceToAda (v : Int) : Rat := (v : Rat) / 1000000

/-- Python round(x, 1): round to one decimal place, ties to even. -/
def pyRound1 (x : Rat) : Rat :=
  let y := x * 10
  let f : Int := ⌊y⌋
  let r : Int :=
    if y - (f : Rat) < 1 / 2 then f
    else if (1 : Rat) / 2 < y - (f : Rat) then f + 1
    else if f % 2 = 0 then f else f + 1
  (r : Rat) / 10

/-- The volume conversion in the pass command:
round(total_volume / 1000000, 1). -/
def convertVolume (v : Int) : Rat := pyRound1 (lovelaceToAda v)

/-- Collection.fetch_floor_price: 404 yields None, any other non-200
status raises, a null floor yields None, otherwise the integer amount
divided by 1000000. -/
def fetch_floor_price (resp : FloorResp) : FetchResult (Option Rat) :=
  if resp.status = 404 then .ok none
  else if resp.status ≠ 200 then .error .fetchingException
  else
    match resp.floor with
    | none => .ok none
    | some v => .ok (some (lovelaceToAda v))

/-- Collection.fetch_last_sale: 404 yields None, any other non-200
status raises, a missing or empty transactions array yields None,
otherwise the first amount divided by 1000000. -/
def fetch_last_sale (resp : TxResp) : FetchResult (Option Rat) :=
  if resp.status = 404 then .ok none
  else if resp.status ≠ 200 then .error .fetchingException
  else
    match resp.transactions with
    | none => .ok none
    | some [] => .ok none
    | some (a :: _) => .ok (some (lovelaceToAda a))

/-- Split a character list on a separator, like Python str.split: the
result is the nonempty list of chunks between separator occurrences. -/
def splitChars (sep : Char) : List Char → List (List Char)
  | [] => [[]]
  | c :: rest =>
    match splitChars sep rest with
    | [] => if c = sep then [[], [c]] else [[c]]
    | s :: ss => if c = sep then [] :: s :: ss else (c :: s) :: ss

/-- The last path segment of a string: split("/")[-1]. -/
def lastSegment (t : String) : String :=
  String.mk ((splitChars '/' t.data).getLastD [])

/-- Collection.fetch_image_url: 404 yields None, any other non-200
status raises, a missing or empty thumbnail yields None, a thumbnail
without a slash yields None, otherwise the gateway URL built from the
last path segment of the thumbnail. -/
def fetch_image_url (resp : CnftResp) : FetchResult (Option String) :=
  if resp.status = 404 then .ok none
  else if resp.status ≠ 200 then .error .fetchingException
  else
    match resp.thumbnail with
    | none => .ok none
    | some t =>
      if t = "" then .ok none
      else if t.data.contains '/' = false then .ok none
      else .ok (some ("https://ipfs.io/ipfs/" ++ lastSegment t))

/-- fetch_collections: 404 yields an empty list, any other non-200
status raises FetchingException, a missing or empty collections array
yields an empty list, otherwise each entry is turned into a Collection. -/
def fetch_collections (resp : SearchResp) : FetchResult (List Collection) :=
  if resp.status = 404 then .ok []
  else if resp.status ≠ 200 then .error .fetchingException
  else
    match resp.collections with
    | none => .ok []
    | some cs =>
      if cs.isEmpty then .ok []
      else .ok (cs.map fun c => ⟨c.url, c.display_name, c.policy_id⟩)

/-- Environment of the floor command: the search response for the query
and, for each resolved collection name, the floor endpoint response. -/
structure FloorEnv where
  searchResp : SearchResp
  floorResp : Option String → FloorResp

/-- One item of the floor command output stream, in send order: an
error embed for a fetch failure, an error embed for an absent price, or
a floor-price embed. -/
inductive FloorItem where
  | errorFetch (display_name : Option String)
  | errorNoPrice (display_name : Option String)
  | record (display_name : Option String) (price : Rat)
  deriving DecidableEq

/-- Outcome of the floor command: search error embed, not-found embed,
or the ordered stream of per-candidate items. -/
inductive FloorOutcome where
  | searchError
  | notFound (query : String)
  | report (items : List FloorItem)
  deriving DecidableEq

/-- The body of the floor command loop for one candidate: catch
FetchingException as an error item, treat an absent price as an error
item, otherwise a record item. -/
def floorItemFor (env : FloorEnv) (c : Collection) : FloorItem :=
  match fetch_floor_price (env.floorResp c.name) with
  | .error _ => .errorFetch c.display_name
  | .ok none => .errorNoPrice c.display_name
  | .ok (some p) => .record c.display_name p

/-- The floor command, returning its outcome together with the list of
collection names whose floor endpoint it queried, in query order. -/
def floorRun (env : FloorEnv) (q : String) : FloorOutcome × List (Option String) :=
  match fetch_collections env.searchResp with
  | .error _ => (.searchError, [])
  | .ok [] => (.notFound q, [])
  | .ok (c :: cs) =>
    (.report ((c :: cs).map (floorItemFor env)), (c :: cs).map (·.name))

/-- The policies table: insertion-ordered rows of (guild_id, policy_id). -/
abbrev Store := List (Int × String)

/-- policy_id_exists: SELECT EXISTS for the (guild, policy) pair. -/
def policy_id_exists (db : Store) (g : Int) (p : String) : Bool :=
  db.any fun r => r.1 == g && r.2 == p

/-- get_policy_ids: the policy ids of the rows of one guild, in row
order. -/
def get_policy_ids (db : Store) (g : Int) : List String :=
  (db.filter fun r => r.1 == g).map (·.2)

/-- Outcome of the insert command. -/
inductive TrackOutcome where
  | alreadyAdded
  | fetchError
  | invalidPolicyId
  | added (display_name : Option String)
  deriving DecidableEq

/-- The insert command: reject if the pair exists, reject if the
search-based resolution raises or yields no collection, otherwise
append the row. -/
def insert (env : String → SearchResp) (db : Store) (g : Int) (p : String) :
    TrackOutcome × Store :=
  if policy_id_exists db g p then (.alreadyAdded, db)
  else
    match fetch_collections (env p) with
    | .error _ => (.fetchError, db)
    | .ok [] => (.invalidPolicyId, db)
    | .ok (c :: _) => (.added c.display_name, db ++ [(g, p)])

/-- Outcome of the remove command. -/
inductive RemoveOutcome where
  | notAdded
  | removed
  deriving DecidableEq

/-- The remove command: reject if the pair is absent, otherwise DELETE
every row of the pair. -/
def remove (db : Store) (g : Int) (p : String) : RemoveOutcome × Store :=
  if policy_id_exists db g p then
    (.removed, db.filter fun r => !(r.1 == g && r.2 == p))
  else (.notAdded, db)

/-- Environment of the pass command: per queried policy id the search
response and the secondary-provider response, and per collection policy
id the transactions response. -/
structure PassEnv where
  searchResp : String → SearchResp
  cnftResp : String → CnftResp
  txResp : Option String → TxResp

/-- One successful entry of the pass report. -/
structure PassEntry where
  index : Nat
  name : Option String
  floor_price : Rat
  supply : Int
  volume : Rat
  last_sale : Option Rat
  deriving DecidableEq

/-- Outcome of the pass command: the empty-list embed, the assembled
report, or an uncaught exception aborting the command. -/
inductive PassOutcome where
  | emptyList
  | report (entries : List PassEntry)
  | exn (e : FetchError)
  deriving DecidableEq

/-- One iteration of the pass loop: resolve the policy id (an exception
propagates), skip on no candidates, skip on a failed secondary-provider
read, fetch the last sale (an exception propagates), and otherwise
produce the report entry. -/
def passStep (env : PassEnv) (idx : Nat) (pid : String) :
    FetchResult (Option PassEntry) :=
  match fetch_collections (env.searchResp pid) with
  | .error e => .error e
  | .ok [] => .ok none
  | .ok (collection :: _) =>
    let resp := env.cnftResp pid
    if resp.status = 404 then .ok none
    else if resp.status ≠ 200 then .ok none
    else
      match fetch_last_sale (env.txResp collection.policy_id) with
      | .error e => .error e
      | .ok ls =>
        .ok (some {
          index := idx
          name := collection.display_name
          floor_price := lovelaceToAda resp.floor_price
          supply := resp.asset_minted
          volume := convertVolume resp.total_volume
          last_sale := ls })

/-- The pass loop over the stored policy ids, enumerating from idx; an
exception in any iteration aborts the whole loop. -/
def passLoop (env : PassEnv) : List String → Nat → FetchResult (List PassEntry)
  | [], _ => .ok []
  | pid :: rest, idx =>
    match passStep env idx pid with
    | .error e => .error e
    | .ok none => passLoop env rest (idx + 1)
    | .ok (some entry) =>
      match passLoop env rest (idx + 1) with
      | .error e => .error e
      | .ok entries => .ok (entry :: entries)

/-- The pass command: read the tracked policy ids of the guild, short
circuit on an empty list, otherwise run the loop. -/
def _pass (env : PassEnv) (db : Store) (g : Int) : PassOutcome :=
  let policy_ids := get_policy_ids db g
  if policy_ids.isEmpty then .emptyList
  else
    match passLoop env policy_ids 0 with
    | .error e => .exn e
    | .ok entries => .report entries

/-! Helper lemmas about the store operations. -/

lemma policy_id_exists_append_self (db : Store) (g : Int) (p : String) :
    policy_id_exists (db ++ [(g, p)]) g p = true := by
  simp [policy_id_exists]

lemma policy_id_exists_filter_out (db : Store) (g : Int) (p : String) :
    policy_id_exists (db.filter fun r => !(r.1 == g && r.2 == p)) g p = false := by
  simp only [policy_id_exists, List.any_eq_false]
  intro r hr
  have hmem := List.of_mem_filter hr
  simp at hmem ⊢
  tauto

lemma count_policy_ids_of_not_exists (db : Store) (g : Int) (p : String)
    (h : policy_id_exists db g p = false) : (get_policy_ids db g).count p = 0 := by
  induction db with
  | nil => rfl
  | cons r rest ih =>
    simp only [policy_id_exists, List.any_cons, Bool.or_eq_false_iff] at h
    obtain ⟨h1, h2⟩ := h
    by_cases hg : r.1 = g
    · have hp : ¬(r.2 == p) = true := by
        intro hp
        rw [hg] at h1
        simp [hp] at h1
      simp only [get_policy_ids, List.filter_cons, hg] at *
      simp only [beq_self_eq_true, if_pos, List.map_cons, List.count_cons]
      have := ih h2
      simp only [get_policy_ids] at this
      simp [this, hp]
    · have hg' : ¬(r.1 == g) = true := by simp [hg]
      simp only [get_policy_ids, List.filter_cons, hg']
      have := ih h2
      simp only [get_policy_ids] at this
      simpa [hg'] using this

lemma get_policy_ids_append_self (db : Store) (g : Int) (p : String) :
    get_policy_ids (db ++ [(g, p)]) g = get_policy_ids db g ++ [p] := by
  simp [get_policy_ids, List.filter_append]

lemma insert_of_exists (env : String → SearchResp) (db : Store) (g : Int) (p : String)
    (hex : policy_id_exists db g p = true) :
    insert env db g p = (.alreadyAdded, db) := by
  simp [insert, hex]

/-! Theorems settling the claims. -/

/-- C1 counterexample: with a single tracked policy id whose search
request returns status 500, the resolution raises FetchingException
and the whole pass command aborts with the exception instead of
skipping the entry and producing a report; so a single entry failure
can abort the whole report. -/
theorem pass_abort_on_resolution_error :
    _pass ⟨fun _ => ⟨500, none⟩, fun _ => ⟨200, 0, 0, 0, none⟩, fun _ => ⟨200, none⟩⟩
      [(1, "p")] 1 = .exn .fetchingException := by decide

/-- C1 amended: in the pass loop, an entry whose resolution returns no
candidates, or whose composite secondary-provider read returns a
non-200 status, is silently skipped and iteration continues with the
next entry; but an entry whose resolution raises FetchingException
aborts the whole loop with that exception. -/
theorem pass_skip_isolated (env : PassEnv) (idx : Nat) (pid : String) (rest : List String) :
    (fetch_collections (env.searchResp pid) = .ok [] →
      passLoop env (pid :: rest) idx = passLoop env rest (idx + 1)) ∧
    (∀ c cs, fetch_collections (env.searchResp pid) = .ok (c :: cs) →
      (env.cnftResp pid).status ≠ 200 →
      passLoop env (pid :: rest) idx = passLoop env rest (idx + 1)) ∧
    (∀ e, fetch_collections (env.searchResp pid) = .error e →
      passLoop env (pid :: rest) idx = .error e) := by
  refine ⟨fun h => ?_, fun c cs h hs => ?_, fun e h => ?_⟩
  · simp [passLoop, passStep, h]
  · have hstep : passStep env idx pid = .ok none := by
      by_cases h404 : (env.cnftResp pid).status = 404 <;>
        simp [passStep, h, h404, hs]
    simp [passLoop, hstep]
  · simp [passLoop, passStep, h]

/-- C1 witness for the amended claim: an entry whose search returns 404
resolves to no candidates and is skipped, the loop continuing with the
next entry. -/
theorem pass_skip_isolated_witness :
    passLoop ⟨fun _ => ⟨404, none⟩, fun _ => ⟨200, 0, 0, 0, none⟩, fun _ => ⟨200, none⟩⟩
      ["p", "q"] 0 =
    passLoop ⟨fun _ => ⟨404, none⟩, fun _ => ⟨200, 0, 0, 0, none⟩, fun _ => ⟨200, none⟩⟩
      ["q"] 1 :=
  (pass_skip_isolated _ 0 "p" ["q"]).1 (by decide)

/-- C2: when the search resolves a nonempty candidate list, the floor
command produces one item per candidate, in the original order, where
the item of each candidate is a function of that candidate alone: a
fetch failure yields an isolated error item, an absent price yields an
isolated error item, and a success yields the price record; no
candidate failure truncates or aborts the report. -/
theorem floor_candidates_isolated (env : FloorEnv) (q : String)
    (c : Collection) (cs : List Collection)
    (h : fetch_collections env.searchResp = .ok (c :: cs)) :
    (floorRun env q).1 = .report ((c :: cs).map (floorItemFor env)) ∧
    ((c :: cs).map (floorItemFor env)).length = (c :: cs).length ∧
    (∀ i : Nat, ((c :: cs).map (floorItemFor env))[i]? =
      ((c :: cs)[i]?).map (floorItemFor env)) ∧
    (∀ a : Collection,
      fetch_floor_price (env.floorResp a.name) = .error .fetchingException →
      floorItemFor env a = .errorFetch a.display_name) ∧
    (∀ a : Collection, fetch_floor_price (env.floorResp a.name) = .ok none →
      floorItemFor env a = .errorNoPrice a.display_name) ∧
    (∀ a : Collection, ∀ p : Rat,
      fetch_floor_price (env.floorResp a.name) = .ok (some p) →
      floorItemFor env a = .record a.display_name p) := by
  refine ⟨by simp [floorRun, h], by simp,
    fun i => by cases i <;> simp [List.getElem?_map], ?_, ?_, ?_⟩
  · intro a h'; simp [floorItemFor, h']
  · intro a h'; simp [floorItemFor, h']
  · intro a p h'; simp [floorItemFor, h']

/-- C2 witness: a single candidate whose floor fetch fails still
yields a report with its isolated error item. -/
theorem floor_candidates_isolated_witness :
    (floorRun ⟨⟨200, some [⟨some "a", some "A", some "pa"⟩]⟩, fun _ => ⟨500, none⟩⟩ "q").1 =
      .report ([(⟨some "a", some "A", some "pa"⟩ : Collection)].map
        (floorItemFor ⟨⟨200, some [⟨some "a", some "A", some "pa"⟩]⟩, fun _ => ⟨500, none⟩⟩)) :=
  (floor_candidates_isolated ⟨⟨200, some [⟨some "a", some "A", some "pa"⟩]⟩, fun _ => ⟨500, none⟩⟩
    "q" ⟨some "a", some "A", some "pa"⟩ [] (by decide)).1

/-- C3 counterexample: at HTTP status 201, a 2xx status other than 404,
fetch_floor_price raises FetchingException, so it does not raise
exactly on the non-2xx statuses other than 404. -/
theorem fetch_floor_price_counterexample_201 :
    fetch_floor_price ⟨201, some 0⟩ = .error .fetchingException ∧
    200 ≤ 201 ∧ 201 < 300 ∧ 201 ≠ 404 := by decide

/-- C3 amended: fetch_floor_price returns absent on 404 or a null
floor field, returns the integer amount divided by 10^6 on a 200
response, and raises FetchingException exactly on every status other
than 200 and 404, 2xx statuses other than 200 included. -/
theorem fetch_floor_price_spec (r : FloorResp) :
    (r.status = 404 → fetch_floor_price r = .ok none) ∧
    (r.status = 200 → fetch_floor_price r = .ok (r.floor.map lovelaceToAda)) ∧
    (fetch_floor_price r = .error .fetchingException ↔
      r.status ≠ 404 ∧ r.status ≠ 200) := by
  refine ⟨fun h => by simp [fetch_floor_price, h], fun h => ?_, ?_⟩
  · cases hf : r.floor <;> simp [fetch_floor_price, h, hf]
  · by_cases h404 : r.status = 404
    · simp [fetch_floor_price, h404]
    · by_cases h200 : r.status = 200
      · cases hf : r.floor <;> simp [fetch_floor_price, h404, h200, hf]
      · simp [fetch_floor_price, h404, h200]

/-- C3 witness: a 404 yields the absent price and a 200 yields the
converted amount. -/
theorem fetch_floor_price_spec_witness :
    fetch_floor_price ⟨404, some 7⟩ = .ok none ∧
    fetch_floor_price ⟨200, some 5000000⟩ = .ok ((some (5000000 : Int)).map lovelaceToAda) :=
  ⟨(fetch_floor_price_spec ⟨404, some 7⟩).1 rfl,
   (fetch_floor_price_spec ⟨200, some 5000000⟩).2.1 rfl⟩

/-- C4: unit conversion is exact: an upstream floor value of 5000000
converts to exactly 5, and an upstream total_volume of 1234567
converts to exactly 1.2 after division by 10^6 and rounding to one
decimal place; Python float results are embedded as exact rationals. -/
theorem unit_conversion_exact :
    fetch_floor_price ⟨200, some 5000000⟩ = .ok (some 5) ∧
    convertVolume 1234567 = (1.2 : Rat) := by
  constructor
  · have h : fetch_floor_price ⟨200, some 5000000⟩ = .ok (some (lovelaceToAda 5000000)) := rfl
    rw [h]
    norm_num [lovelaceToAda]
  · have hf : ⌊(lovelaceToAda 1234567) * 10⌋ = 12 := by
      rw [lovelaceToAda, Int.floor_eq_iff]
      norm_num
    rw [convertVolume, pyRound1]
    rw [hf]
    norm_num [lovelaceToAda]

/-- C5: a free-text query whose search yields zero hits, that is a 404
response or an empty or missing collections list, makes the floor
command return the not-found outcome with an empty list of queried
floor endpoints: no per-candidate floor-price fetch occurs. -/
theorem floor_notFound_no_calls (env : FloorEnv) (q : String)
    (h : env.searchResp.status = 404 ∨
      (env.searchResp.status = 200 ∧
        (env.searchResp.collections = none ∨ env.searchResp.collections = some []))) :
    floorRun env q = (.notFound q, []) := by
  rcases h with h | ⟨h200, hc⟩
  · simp [floorRun, fetch_collections, h]
  · rcases hc with hc | hc <;> simp [floorRun, fetch_collections, h200, hc]

/-- C5 witness: a 404 search response yields the not-found outcome and
an empty call list. -/
theorem floor_notFound_no_calls_witness :
    floorRun ⟨⟨404, none⟩, fun _ => ⟨200, some 0⟩⟩ "q" = (.notFound "q", []) :=
  floor_notFound_no_calls ⟨⟨404, none⟩, fun _ => ⟨200, some 0⟩⟩ "q" (Or.inl rfl)

/-- C6: after a track whose resolution yields at least one candidate,
exists for the pair returns true; after an untrack, exists returns
false; and untrack of an untracked pair returns the not-added outcome
and leaves the store unchanged. -/
theorem track_untrack_exists (env : String → SearchResp) (db : Store) (g : Int) (p : String)
    (c : Collection) (cs : List Collection)
    (h : fetch_collections (env p) = .ok (c :: cs)) :
    policy_id_exists (insert env db g p).2 g p = true ∧
    policy_id_exists (remove db g p).2 g p = false ∧
    (policy_id_exists db g p = false → remove db g p = (.notAdded, db)) := by
  refine ⟨?_, ?_, fun hne => by simp [remove, hne]⟩
  · by_cases hex : policy_id_exists db g p = true
    · simp [insert, hex]
    · simp only [insert, hex, Bool.false_eq_true, if_false, h]
      exact policy_id_exists_append_self db g p
  · by_cases hex : policy_id_exists db g p = true
    · simp only [remove, hex, if_true]
      exact policy_id_exists_filter_out db g p
    · simp [remove, hex]

/-- C6 witness: tracking a fresh pair makes exists return true. -/
theorem track_untrack_exists_witness :
    policy_id_exists (insert (fun _ => ⟨200, some [⟨none, none, none⟩]⟩) [] 1 "p").2 1 "p" = true :=
  (track_untrack_exists (fun _ => ⟨200, some [⟨none, none, none⟩]⟩) [] 1 "p"
    ⟨none, none, none⟩ [] (by decide)).1

/-- C7: from a store where the pair is absent, a successful track makes
the guild list contain the policy id exactly once, and an immediately
repeated track is rejected by the exists pre-check with the store left
unchanged, so the track operation never creates a duplicate row. -/
theorem track_list_once (env : String → SearchResp) (db : Store) (g : Int) (p : String)
    (c : Collection) (cs : List Collection)
    (hne : policy_id_exists db g p = false)
    (h : fetch_collections (env p) = .ok (c :: cs)) :
    (get_policy_ids (insert env db g p).2 g).count p = 1 ∧
    insert env (insert env db g p).2 g p = (.alreadyAdded, (insert env db g p).2) := by
  have hdb : (insert env db g p).2 = db ++ [(g, p)] := by
    simp [insert, hne, h]
  constructor
  · rw [hdb, get_policy_ids_append_self, List.count_append,
      count_policy_ids_of_not_exists db g p hne]
    simp
  · have hex : policy_id_exists (insert env db g p).2 g p = true := by
      rw [hdb]; exact policy_id_exists_append_self db g p
    exact insert_of_exists env (insert env db g p).2 g p hex

/-- C7 witness: tracking a fresh pair lists it exactly once. -/
theorem track_list_once_witness :
    (get_policy_ids (insert (fun _ => ⟨200, some [⟨none, none, none⟩]⟩) [] 2 "pp").2 2).count "pp" = 1 :=
  (track_list_once (fun _ => ⟨200, some [⟨none, none, none⟩]⟩) [] 2 "pp"
    ⟨none, none, none⟩ [] rfl (by decide)).1

/-- C8: for a guild with zero tracked rows, get_policy_ids returns the
empty list and the pass command returns the empty-list outcome for
every environment of responses, hence without consulting any network
response. -/
theorem empty_tracked_no_network (db : Store) (g : Int) (env : PassEnv)
    (h : ∀ r ∈ db, r.1 ≠ g) :
    get_policy_ids db g = [] ∧ _pass env db g = .emptyList := by
  have hids : get_policy_ids db g = [] := by
    simp only [get_policy_ids, List.map_eq_nil_iff]
    rw [List.filter_eq_nil_iff]
    intro r hr
    simpa using h r hr
  exact ⟨hids, by simp [_pass, hids]⟩

/-- C8 witness: a guild with no rows gets the empty list and the
empty-list outcome. -/
theorem empty_tracked_no_network_witness :
    get_policy_ids [((2 : Int), "x")] 1 = [] ∧
    _pass ⟨fun _ => ⟨500, none⟩, fun _ => ⟨500, 0, 0, 0, none⟩, fun _ => ⟨500, none⟩⟩
      [((2 : Int), "x")] 1 = .emptyList :=
  empty_tracked_no_network [((2 : Int), "x")] 1
    ⟨fun _ => ⟨500, none⟩, fun _ => ⟨500, 0, 0, 0, none⟩, fun _ => ⟨500, none⟩⟩ (by decide)

/-- C9: under a 200 response, fetch_image_url is absent when the
thumbnail field is missing, empty, or contains no slash; otherwise it
returns the gateway URL obtained by appending the last path segment of
the thumbnail, and for thumbnail ipfs/abc123 the returned URL is the
gateway URL ending in the segment abc123. -/
theorem fetch_image_url_spec (r : CnftResp) (h : r.status = 200) :
    (r.thumbnail = none → fetch_image_url r = .ok none) ∧
    (r.thumbnail = some "" → fetch_image_url r = .ok none) ∧
    (∀ t, r.thumbnail = some t → t.data.contains '/' = false →
      fetch_image_url r = .ok none) ∧
    (∀ t, r.thumbnail = some t → t ≠ "" → t.data.contains '/' = true →
      fetch_image_url r = .ok (some ("https://ipfs.io/ipfs/" ++ lastSegment t))) ∧
    (r.thumbnail = some "ipfs/abc123" →
      fetch_image_url r = .ok (some "https://ipfs.io/ipfs/abc123") ∧
      lastSegment "https://ipfs.io/ipfs/abc123" = "abc123") := by
  refine ⟨fun ht => by simp [fetch_image_url, h, ht],
    fun ht => by simp [fetch_image_url, h, ht],
    fun t ht hc => ?_, fun t ht hne hc => ?_, fun ht => ?_⟩
  · by_cases he : t = ""
    · simp [fetch_image_url, h, ht, he]
    · simp [fetch_image_url, h, ht, he]
      simpa using hc
  · simp [fetch_image_url, h, ht, hne]
    simpa using hc
  · constructor
    · simp only [fetch_image_url, h, ht]
      decide
    · decide

/-- C9 witness: the thumbnail ipfs/abc123 yields the gateway URL whose
last segment is abc123. -/
theorem fetch_image_url_spec_witness :
    fetch_image_url ⟨200, 0, 0, 0, some "ipfs/abc123"⟩ = .ok (some "https://ipfs.io/ipfs/abc123") :=
  ((fetch_image_url_spec ⟨200, 0, 0, 0, some "ipfs/abc123"⟩ rfl).2.2.2.2 rfl).1

/-- C10: the track operation is atomic on error: when the pair is not
yet tracked, a resolution that raises or yields no candidates inserts
no row and leaves the store unchanged, and a row is appended exactly
when the resolution yields at least one collection. -/
theorem insert_atomic (env : String → SearchResp) (db : Store) (g : Int) (p : String)
    (hne : policy_id_exists db g p = false) :
    (fetch_collections (env p) = .error .fetchingException →
      insert env db g p = (.fetchError, db)) ∧
    (fetch_collections (env p) = .ok [] →
      insert env db g p = (.invalidPolicyId, db)) ∧
    (∀ c cs, fetch_collections (env p) = .ok (c :: cs) →
      insert env db g p = (.added c.display_name, db ++ [(g, p)])) := by
  refine ⟨fun h => by simp [insert, hne, h], fun h => by simp [insert, hne, h],
    fun c cs h => by simp [insert, hne, h]⟩

/-- C10 witness: a resolution raising FetchingException leaves the
store unchanged with the fetch-error outcome. -/
theorem insert_atomic_witness :
    insert (fun _ => ⟨500, none⟩) [] 1 "p" = (.fetchError, []) :=
  (insert_atomic (fun _ => ⟨500, none⟩) [] 1 "p" rfl).1 (by decide)

end NftBot
